import Mathlib

/-!
Shallow embedding of the L1 block info calldata codecs from
`crates/protocol/protocol/src/info/isthmus.rs` and
`crates/protocol/protocol/src/info/jovian.rs`.

Byte buffers are `List Nat` (one entry per byte); Rust machine integers are
`Nat` with explicit width bounds (`n < 256 ^ w`) where the width matters.
The Ecotone base codec and the `DecodeError` enum live outside the excerpt,
so they are modelled from the spec where indicated.
-/

/-- Big-endian bytes of `n`, exactly `w` bytes (mirrors Rust `to_be_bytes`). -/
def toBytesBE : Nat → Nat → List Nat
  | 0, _ => []
  | w + 1, n => toBytesBE w (n / 256) ++ [n % 256]

/-- Big-endian value of a byte list (mirrors Rust `from_be_bytes`). -/
def fromBytesBE (l : List Nat) : Nat :=
  l.foldl (fun acc b => acc * 256 + b) 0

/-- The subslice `r[i..j]` of a byte buffer (mirrors Rust slice indexing). -/
def byteSlice (r : List Nat) (i j : Nat) : List Nat :=
  (r.drop i).take (j - i)

/-- Modelled from the spec: the decode error enum (`errors.rs` is not part of
the excerpt). Only the two variants the excerpt's code constructs are needed:
one length-mismatch error per tier, carrying (expected, actual) byte lengths. -/
inductive DecodeError where
  | InvalidIsthmusLength : Nat → Nat → DecodeError
  | InvalidJovianLength : Nat → Nat → DecodeError
  deriving DecidableEq

/-- Modelled from the spec: the Ecotone-era record (`ecotone.rs` is not part of
the excerpt). Field set from spec section 3 (EcotoneInfo). -/
structure L1BlockInfoEcotone where
  number : Nat
  time : Nat
  base_fee : Nat
  block_hash : Nat
  sequence_number : Nat
  batcher_address : Nat
  blob_base_fee : Nat
  blob_base_fee_scalar : Nat
  base_fee_scalar : Nat
  empty_scalars : Bool
  l1_fee_overhead : Nat
  deriving DecidableEq

/-- Modelled from the spec: `L1BlockInfoEcotone::encode_base_fields`
(`ecotone.rs`/`common.rs` are not part of the excerpt). Spec section 4.1: a
164-byte buffer, selector bytes [0..4) left as a zero placeholder for the
caller to overwrite, fields big-endian at fixed offsets (base-fee-scalar 4-7,
blob-base-fee-scalar 8-11, sequence-number 12-19, timestamp 20-27,
L1-block-number 28-35, base-fee 36-67, blob-base-fee 68-99, block-hash
100-131, batcher address 132-163, address right-padded to 32 bytes). -/
def L1BlockInfoEcotone.encode_base_fields (v : L1BlockInfoEcotone) : List Nat :=
  [0, 0, 0, 0] ++
    toBytesBE 4 v.base_fee_scalar ++
    toBytesBE 4 v.blob_base_fee_scalar ++
    toBytesBE 8 v.sequence_number ++
    toBytesBE 8 v.time ++
    toBytesBE 8 v.number ++
    toBytesBE 32 v.base_fee ++
    toBytesBE 32 v.blob_base_fee ++
    toBytesBE 32 v.block_hash ++
    toBytesBE 20 v.batcher_address ++
    List.replicate 12 0

/-- Modelled from the spec: `L1BlockInfoEcotone::decode_base_fields`
(`ecotone.rs`/`common.rs` are not part of the excerpt). Spec section 4.1:
infallible given a pre-length-validated buffer, reads the fields back from the
same fixed offsets, and never inspects the selector bytes [0..4); the two
legacy-compatibility fields take their fixed defaults (`false` / zero). -/
def L1BlockInfoEcotone.decode_base_fields (r : List Nat) : L1BlockInfoEcotone :=
  { base_fee_scalar := fromBytesBE (byteSlice r 4 8)
    blob_base_fee_scalar := fromBytesBE (byteSlice r 8 12)
    sequence_number := fromBytesBE (byteSlice r 12 20)
    time := fromBytesBE (byteSlice r 20 28)
    number := fromBytesBE (byteSlice r 28 36)
    base_fee := fromBytesBE (byteSlice r 36 68)
    blob_base_fee := fromBytesBE (byteSlice r 68 100)
    block_hash := fromBytesBE (byteSlice r 100 132)
    batcher_address := fromBytesBE (byteSlice r 132 152)
    empty_scalars := false
    l1_fee_overhead := 0 }

/-- Embeds `L1BlockInfoIsthmus` (isthmus.rs, lines 29-52). -/
structure L1BlockInfoIsthmus where
  number : Nat
  time : Nat
  base_fee : Nat
  block_hash : Nat
  sequence_number : Nat
  batcher_address : Nat
  blob_base_fee : Nat
  blob_base_fee_scalar : Nat
  base_fee_scalar : Nat
  operator_fee_scalar : Nat
  operator_fee_constant : Nat
  deriving DecidableEq

namespace L1BlockInfoIsthmus

/-- isthmus.rs line 59: `4 + 32 * 5 + 4 + 8`. -/
def L1_INFO_TX_LEN : Nat := 4 + 32 * 5 + 4 + 8

/-- isthmus.rs line 62: the 4-byte selector of "setL1BlockValuesIsthmus()". -/
def L1_INFO_TX_SELECTOR : List Nat := [0x09, 0x89, 0x99, 0xbe]

/-- isthmus.rs lines 68-82: projection onto the Ecotone record. -/
def to_ecotone (v : L1BlockInfoIsthmus) : L1BlockInfoEcotone :=
  { number := v.number
    time := v.time
    base_fee := v.base_fee
    block_hash := v.block_hash
    sequence_number := v.sequence_number
    batcher_address := v.batcher_address
    blob_base_fee := v.blob_base_fee
    blob_base_fee_scalar := v.blob_base_fee_scalar
    base_fee_scalar := v.base_fee_scalar
    empty_scalars := false
    l1_fee_overhead := 0 }

/-- isthmus.rs lines 85-103: lift from an Ecotone record plus the two
Isthmus-specific fields. -/
def from_ecotone (ecotone : L1BlockInfoEcotone) (operator_fee_scalar : Nat)
    (operator_fee_constant : Nat) : L1BlockInfoIsthmus :=
  { number := ecotone.number
    time := ecotone.time
    base_fee := ecotone.base_fee
    block_hash := ecotone.block_hash
    sequence_number := ecotone.sequence_number
    batcher_address := ecotone.batcher_address
    blob_base_fee := ecotone.blob_base_fee
    blob_base_fee_scalar := ecotone.blob_base_fee_scalar
    base_fee_scalar := ecotone.base_fee_scalar
    operator_fee_scalar := operator_fee_scalar
    operator_fee_constant := operator_fee_constant }

/-- isthmus.rs lines 108-111: append the two Isthmus fields to `buf`. -/
def encode_isthmus_fields (v : L1BlockInfoIsthmus) (buf : List Nat) : List Nat :=
  buf ++ toBytesBE 4 v.operator_fee_scalar ++ toBytesBE 8 v.operator_fee_constant

/-- isthmus.rs lines 118-130: read the two Isthmus fields from `r[164..168]`
and `r[168..176]`. -/
def decode_isthmus_fields (r : List Nat) : Nat × Nat :=
  (fromBytesBE (byteSlice r 164 168), fromBytesBE (byteSlice r 168 176))

/-- isthmus.rs lines 133-145: Ecotone base encoding, selector overwritten with
the Isthmus selector, Isthmus fields appended. -/
def encode_calldata (v : L1BlockInfoIsthmus) : List Nat :=
  let buf := v.to_ecotone.encode_base_fields
  let buf := L1_INFO_TX_SELECTOR ++ buf.drop 4
  v.encode_isthmus_fields buf

/-- isthmus.rs lines 148-163: length check, then base-field and Isthmus-field
decode, composed via `from_ecotone`. -/
def decode_calldata (r : List Nat) : Except DecodeError L1BlockInfoIsthmus :=
  if r.length ≠ L1_INFO_TX_LEN then
    Except.error (DecodeError.InvalidIsthmusLength L1_INFO_TX_LEN r.length)
  else
    let ecotone := L1BlockInfoEcotone.decode_base_fields r
    let p := decode_isthmus_fields r
    Except.ok (from_ecotone ecotone p.1 p.2)

/-- Width bounds stating that every field fits its Rust type (u64, u256 for
the hash slot, u160 address, u128 blob base fee, u32 scalars). -/
abbrev Valid (v : L1BlockInfoIsthmus) : Prop :=
  v.number < 256 ^ 8 ∧ v.time < 256 ^ 8 ∧ v.base_fee < 256 ^ 8 ∧
    v.block_hash < 256 ^ 32 ∧ v.sequence_number < 256 ^ 8 ∧
    v.batcher_address < 256 ^ 20 ∧ v.blob_base_fee < 256 ^ 16 ∧
    v.blob_base_fee_scalar < 256 ^ 4 ∧ v.base_fee_scalar < 256 ^ 4 ∧
    v.operator_fee_scalar < 256 ^ 4 ∧ v.operator_fee_constant < 256 ^ 8

end L1BlockInfoIsthmus

/-- Embeds `L1BlockInfoJovian` (jovian.rs, lines 30-55). -/
structure L1BlockInfoJovian where
  number : Nat
  time : Nat
  base_fee : Nat
  block_hash : Nat
  sequence_number : Nat
  batcher_address : Nat
  blob_base_fee : Nat
  blob_base_fee_scalar : Nat
  base_fee_scalar : Nat
  operator_fee_scalar : Nat
  operator_fee_constant : Nat
  da_footprint_gas_scalar : Nat
  deriving DecidableEq

namespace L1BlockInfoJovian

/-- jovian.rs line 60: the default DA footprint gas scalar constant. -/
def DEFAULT_DA_FOOTPRINT_GAS_SCALAR : Nat := 400

/-- jovian.rs line 66: `4 + 32 * 5 + 4 + 8 + 2`. -/
def L1_INFO_TX_LEN : Nat := 4 + 32 * 5 + 4 + 8 + 2

/-- jovian.rs line 70: the 4-byte selector of "setL1BlockValuesJovian()". -/
def L1_INFO_TX_SELECTOR : List Nat := [0x3d, 0xb6, 0xbe, 0x2b]

/-- jovian.rs line 28: the struct derives `Default`, whose Rust semantics give
every numeric field the value zero (and zero bytes for hash and address). -/
def default : L1BlockInfoJovian :=
  { number := 0
    time := 0
    base_fee := 0
    block_hash := 0
    sequence_number := 0
    batcher_address := 0
    blob_base_fee := 0
    blob_base_fee_scalar := 0
    base_fee_scalar := 0
    operator_fee_scalar := 0
    operator_fee_constant := 0
    da_footprint_gas_scalar := 0 }

/-- jovian.rs lines 76-90: projection onto the Isthmus record. -/
def to_isthmus (v : L1BlockInfoJovian) : L1BlockInfoIsthmus :=
  { number := v.number
    time := v.time
    base_fee := v.base_fee
    block_hash := v.block_hash
    sequence_number := v.sequence_number
    batcher_address := v.batcher_address
    blob_base_fee := v.blob_base_fee
    blob_base_fee_scalar := v.blob_base_fee_scalar
    base_fee_scalar := v.base_fee_scalar
    operator_fee_scalar := v.operator_fee_scalar
    operator_fee_constant := v.operator_fee_constant }

/-- jovian.rs lines 93-108: lift from an Isthmus record plus the
Jovian-specific field. -/
def from_isthmus (isthmus : L1BlockInfoIsthmus) (da_footprint_gas_scalar : Nat) :
    L1BlockInfoJovian :=
  { number := isthmus.number
    time := isthmus.time
    base_fee := isthmus.base_fee
    block_hash := isthmus.block_hash
    sequence_number := isthmus.sequence_number
    batcher_address := isthmus.batcher_address
    blob_base_fee := isthmus.blob_base_fee
    blob_base_fee_scalar := isthmus.blob_base_fee_scalar
    base_fee_scalar := isthmus.base_fee_scalar
    operator_fee_scalar := isthmus.operator_fee_scalar
    operator_fee_constant := isthmus.operator_fee_constant
    da_footprint_gas_scalar := da_footprint_gas_scalar }

/-- jovian.rs lines 113-115: append the Jovian field to `buf`. -/
def encode_jovian_fields (v : L1BlockInfoJovian) (buf : List Nat) : List Nat :=
  buf ++ toBytesBE 2 v.da_footprint_gas_scalar

/-- jovian.rs lines 122-127: read the Jovian field from `r[176..178]`. -/
def decode_jovian_fields (r : List Nat) : Nat :=
  fromBytesBE (byteSlice r 176 178)

/-- jovian.rs lines 130-142: Isthmus encoding, selector overwritten with the
Jovian selector, Jovian field appended. -/
def encode_calldata (v : L1BlockInfoJovian) : List Nat :=
  let buf := v.to_isthmus.encode_calldata
  let buf := L1_INFO_TX_SELECTOR ++ buf.drop 4
  v.encode_jovian_fields buf

/-- jovian.rs lines 145-162: length check, delegation to the Isthmus decoder
on the first 176 bytes (its error mapped to `InvalidJovianLength`), then the
Jovian field, composed via `from_isthmus`. -/
def decode_calldata (r : List Nat) : Except DecodeError L1BlockInfoJovian :=
  if r.length ≠ L1_INFO_TX_LEN then
    Except.error (DecodeError.InvalidJovianLength L1_INFO_TX_LEN r.length)
  else
    match L1BlockInfoIsthmus.decode_calldata (r.take L1BlockInfoIsthmus.L1_INFO_TX_LEN) with
    | Except.error _ => Except.error (DecodeError.InvalidJovianLength L1_INFO_TX_LEN r.length)
    | Except.ok isthmus => Except.ok (from_isthmus isthmus (decode_jovian_fields r))

/-- Width bounds stating that every field fits its Rust type. -/
abbrev Valid (v : L1BlockInfoJovian) : Prop :=
  v.number < 256 ^ 8 ∧ v.time < 256 ^ 8 ∧ v.base_fee < 256 ^ 8 ∧
    v.block_hash < 256 ^ 32 ∧ v.sequence_number < 256 ^ 8 ∧
    v.batcher_address < 256 ^ 20 ∧ v.blob_base_fee < 256 ^ 16 ∧
    v.blob_base_fee_scalar < 256 ^ 4 ∧ v.base_fee_scalar < 256 ^ 4 ∧
    v.operator_fee_scalar < 256 ^ 4 ∧ v.operator_fee_constant < 256 ^ 8 ∧
    v.da_footprint_gas_scalar < 256 ^ 2

end L1BlockInfoJovian

/-! ### Byte-level and list-level helper lemmas -/

@[simp] theorem toBytesBE_length (w n : Nat) : (toBytesBE w n).length = w := by
  induction w generalizing n with
  | zero => rfl
  | succ w ih => simp [toBytesBE, ih]

theorem fromBytesBE_append_singleton (l : List Nat) (b : Nat) :
    fromBytesBE (l ++ [b]) = fromBytesBE l * 256 + b := by
  simp [fromBytesBE, List.foldl_append]

@[simp] theorem fromBytesBE_toBytesBE (w n : Nat) :
    fromBytesBE (toBytesBE w n) = n % 256 ^ w := by
  induction w generalizing n with
  | zero => simp [toBytesBE, fromBytesBE, Nat.mod_one]
  | succ w ih =>
    rw [toBytesBE, fromBytesBE_append_singleton, ih]
    have h : n % (256 * 256 ^ w) = n % 256 + 256 * (n / 256 % 256 ^ w) := Nat.mod_mul
    rw [Nat.pow_succ, Nat.mul_comm (256 ^ w) 256, h]
    ring

@[simp] theorem dropAppendOfLe (xs ys : List Nat) (n : Nat) (h : xs.length ≤ n) :
    (xs ++ ys).drop n = ys.drop (n - xs.length) := by
  induction xs generalizing n with
  | nil => simp
  | cons x xs ih =>
    cases n with
    | zero => simp at h
    | succ n => simpa using ih n (by simpa using h)

@[simp] theorem takeAppendOfLe (xs ys : List Nat) (n : Nat) (h : xs.length ≤ n) :
    (xs ++ ys).take n = xs ++ ys.take (n - xs.length) := by
  induction xs generalizing n with
  | nil => simp
  | cons x xs ih =>
    cases n with
    | zero => simp at h
    | succ n => simpa using ih n (by simpa using h)

@[simp] theorem takeOfLengthEq (xs : List Nat) (n : Nat) (h : xs.length = n) :
    xs.take n = xs := by
  subst h
  exact List.take_length xs

theorem dropOfDropFour (r1 r2 : List Nat) (h : r1.drop 4 = r2.drop 4) :
    ∀ i, 4 ≤ i → r1.drop i = r2.drop i := by
  intro i hi
  have h4 : 4 + (i - 4) = i := by omega
  rw [← h4, ← List.drop_drop, h, List.drop_drop]

/-! ### Chunk normal forms of the two encoders -/

theorem encodeI_chunks (v : L1BlockInfoIsthmus) :
    v.encode_calldata =
      L1BlockInfoIsthmus.L1_INFO_TX_SELECTOR ++
        toBytesBE 4 v.base_fee_scalar ++
        toBytesBE 4 v.blob_base_fee_scalar ++
        toBytesBE 8 v.sequence_number ++
        toBytesBE 8 v.time ++
        toBytesBE 8 v.number ++
        toBytesBE 32 v.base_fee ++
        toBytesBE 32 v.blob_base_fee ++
        toBytesBE 32 v.block_hash ++
        toBytesBE 20 v.batcher_address ++
        List.replicate 12 0 ++
        toBytesBE 4 v.operator_fee_scalar ++
        toBytesBE 8 v.operator_fee_constant := by
  simp [L1BlockInfoIsthmus.encode_calldata, L1BlockInfoIsthmus.to_ecotone,
    L1BlockInfoEcotone.encode_base_fields, L1BlockInfoIsthmus.encode_isthmus_fields,
    List.append_assoc]

theorem encodeJ_chunks (v : L1BlockInfoJovian) :
    v.encode_calldata =
      L1BlockInfoJovian.L1_INFO_TX_SELECTOR ++
        toBytesBE 4 v.base_fee_scalar ++
        toBytesBE 4 v.blob_base_fee_scalar ++
        toBytesBE 8 v.sequence_number ++
        toBytesBE 8 v.time ++
        toBytesBE 8 v.number ++
        toBytesBE 32 v.base_fee ++
        toBytesBE 32 v.blob_base_fee ++
        toBytesBE 32 v.block_hash ++
        toBytesBE 20 v.batcher_address ++
        List.replicate 12 0 ++
        toBytesBE 4 v.operator_fee_scalar ++
        toBytesBE 8 v.operator_fee_constant ++
        toBytesBE 2 v.da_footprint_gas_scalar := by
  simp [L1BlockInfoJovian.encode_calldata, encodeI_chunks,
    L1BlockInfoJovian.to_isthmus, L1BlockInfoJovian.encode_jovian_fields,
    L1BlockInfoIsthmus.L1_INFO_TX_SELECTOR, List.append_assoc]

theorem encodeI_length (v : L1BlockInfoIsthmus) : v.encode_calldata.length = 176 := by
  rw [encodeI_chunks]
  simp [L1BlockInfoIsthmus.L1_INFO_TX_SELECTOR]

theorem encodeJ_length (v : L1BlockInfoJovian) : v.encode_calldata.length = 178 := by
  rw [encodeJ_chunks]
  simp [L1BlockInfoJovian.L1_INFO_TX_SELECTOR]

/-! ### Decoding a chunked 176-byte buffer, with an arbitrary 4-byte selector -/

theorem decodeI_of_chunks (s : List Nat) (hs : s.length = 4) (v : L1BlockInfoIsthmus)
    (h1 : v.number < 256 ^ 8) (h2 : v.time < 256 ^ 8) (h3 : v.base_fee < 256 ^ 8)
    (h4 : v.block_hash < 256 ^ 32) (h5 : v.sequence_number < 256 ^ 8)
    (h6 : v.batcher_address < 256 ^ 20) (h7 : v.blob_base_fee < 256 ^ 16)
    (h8 : v.blob_base_fee_scalar < 256 ^ 4) (h9 : v.base_fee_scalar < 256 ^ 4)
    (h10 : v.operator_fee_scalar < 256 ^ 4) (h11 : v.operator_fee_constant < 256 ^ 8) :
    L1BlockInfoIsthmus.decode_calldata
        (s ++
          toBytesBE 4 v.base_fee_scalar ++
          toBytesBE 4 v.blob_base_fee_scalar ++
          toBytesBE 8 v.sequence_number ++
          toBytesBE 8 v.time ++
          toBytesBE 8 v.number ++
          toBytesBE 32 v.base_fee ++
          toBytesBE 32 v.blob_base_fee ++
          toBytesBE 32 v.block_hash ++
          toBytesBE 20 v.batcher_address ++
          List.replicate 12 0 ++
          toBytesBE 4 v.operator_fee_scalar ++
          toBytesBE 8 v.operator_fee_constant) =
      Except.ok v := by
  obtain ⟨n1, n2, n3, n4, n5, n6, n7, n8, n9, n10, n11⟩ := v
  simp only at h1 h2 h3 h4 h5 h6 h7 h8 h9 h10 h11
  norm_num at h1 h2 h3 h4 h5 h6 h7 h8 h9 h10 h11
  simp [L1BlockInfoIsthmus.decode_calldata, L1BlockInfoIsthmus.L1_INFO_TX_LEN,
    L1BlockInfoEcotone.decode_base_fields, L1BlockInfoIsthmus.decode_isthmus_fields,
    L1BlockInfoIsthmus.from_ecotone, byteSlice, hs, L1BlockInfoIsthmus.mk.injEq]
  omega

/-! ### Round-trip helpers -/

theorem decodeI_encodeI (v : L1BlockInfoIsthmus) (hv : v.Valid) :
    L1BlockInfoIsthmus.decode_calldata v.encode_calldata = Except.ok v := by
  obtain ⟨h1, h2, h3, h4, h5, h6, h7, h8, h9, h10, h11⟩ := hv
  rw [encodeI_chunks]
  exact decodeI_of_chunks L1BlockInfoIsthmus.L1_INFO_TX_SELECTOR rfl v h1 h2 h3 h4 h5 h6 h7 h8 h9 h10 h11

theorem takeI_encodeJ (v : L1BlockInfoJovian) :
    v.encode_calldata.take 176 =
      L1BlockInfoJovian.L1_INFO_TX_SELECTOR ++
        toBytesBE 4 v.base_fee_scalar ++
        toBytesBE 4 v.blob_base_fee_scalar ++
        toBytesBE 8 v.sequence_number ++
        toBytesBE 8 v.time ++
        toBytesBE 8 v.number ++
        toBytesBE 32 v.base_fee ++
        toBytesBE 32 v.blob_base_fee ++
        toBytesBE 32 v.block_hash ++
        toBytesBE 20 v.batcher_address ++
        List.replicate 12 0 ++
        toBytesBE 4 v.operator_fee_scalar ++
        toBytesBE 8 v.operator_fee_constant := by
  rw [encodeJ_chunks]
  simp [L1BlockInfoJovian.L1_INFO_TX_SELECTOR]

theorem decodeJ_encodeJ (v : L1BlockInfoJovian) (hv : v.Valid) :
    L1BlockInfoJovian.decode_calldata v.encode_calldata = Except.ok v := by
  obtain ⟨h1, h2, h3, h4, h5, h6, h7, h8, h9, h10, h11, h12⟩ := hv
  have hlen : v.encode_calldata.length = 178 := encodeJ_length v
  have hmid : L1BlockInfoIsthmus.decode_calldata (v.encode_calldata.take 176) =
      Except.ok v.to_isthmus := by
    rw [takeI_encodeJ]
    exact decodeI_of_chunks L1BlockInfoJovian.L1_INFO_TX_SELECTOR rfl v.to_isthmus h1 h2 h3 h4 h5 h6 h7 h8 h9 h10 h11
  have hda : L1BlockInfoJovian.decode_jovian_fields v.encode_calldata =
      v.da_footprint_gas_scalar := by
    rw [encodeJ_chunks]
    norm_num at h12
    simp [L1BlockInfoJovian.decode_jovian_fields, byteSlice,
      L1BlockInfoJovian.L1_INFO_TX_SELECTOR]
    omega
  unfold L1BlockInfoJovian.decode_calldata
  rw [if_neg (by simp [hlen, L1BlockInfoJovian.L1_INFO_TX_LEN])]
  rw [show L1BlockInfoIsthmus.L1_INFO_TX_LEN = 176 from rfl, hmid, hda]
  simp [L1BlockInfoJovian.from_isthmus, L1BlockInfoJovian.to_isthmus]

/-! ### Selector-agnosticism helpers -/

theorem decode_base_fields_ext (r1 r2 : List Nat) (h : r1.drop 4 = r2.drop 4) :
    L1BlockInfoEcotone.decode_base_fields r1 = L1BlockInfoEcotone.decode_base_fields r2 := by
  have key := dropOfDropFour r1 r2 h
  simp only [L1BlockInfoEcotone.decode_base_fields, byteSlice]
  rw [key 4 (by norm_num), key 8 (by norm_num), key 12 (by norm_num), key 20 (by norm_num),
    key 28 (by norm_num), key 36 (by norm_num), key 68 (by norm_num), key 100 (by norm_num),
    key 132 (by norm_num)]

theorem decode_isthmus_fields_ext (r1 r2 : List Nat) (h : r1.drop 4 = r2.drop 4) :
    L1BlockInfoIsthmus.decode_isthmus_fields r1 = L1BlockInfoIsthmus.decode_isthmus_fields r2 := by
  have key := dropOfDropFour r1 r2 h
  simp only [L1BlockInfoIsthmus.decode_isthmus_fields, byteSlice]
  rw [key 164 (by norm_num), key 168 (by norm_num)]

theorem decodeI_ext (r1 r2 : List Nat) (hl : r1.length = r2.length)
    (h : r1.drop 4 = r2.drop 4) :
    L1BlockInfoIsthmus.decode_calldata r1 = L1BlockInfoIsthmus.decode_calldata r2 := by
  simp only [L1BlockInfoIsthmus.decode_calldata, hl,
    decode_base_fields_ext r1 r2 h, decode_isthmus_fields_ext r1 r2 h]

theorem decode_jovian_fields_ext (r1 r2 : List Nat) (h : r1.drop 4 = r2.drop 4) :
    L1BlockInfoJovian.decode_jovian_fields r1 = L1BlockInfoJovian.decode_jovian_fields r2 := by
  have key := dropOfDropFour r1 r2 h
  simp only [L1BlockInfoJovian.decode_jovian_fields, byteSlice]
  rw [key 176 (by norm_num)]

theorem decodeJ_ext (r1 r2 : List Nat) (hl : r1.length = r2.length)
    (h : r1.drop 4 = r2.drop 4) :
    L1BlockInfoJovian.decode_calldata r1 = L1BlockInfoJovian.decode_calldata r2 := by
  have htl : (r1.take L1BlockInfoIsthmus.L1_INFO_TX_LEN).length =
      (r2.take L1BlockInfoIsthmus.L1_INFO_TX_LEN).length := by
    simp [hl]
  have htd : (r1.take L1BlockInfoIsthmus.L1_INFO_TX_LEN).drop 4 =
      (r2.take L1BlockInfoIsthmus.L1_INFO_TX_LEN).drop 4 := by
    rw [List.drop_take, List.drop_take, h]
  simp only [L1BlockInfoJovian.decode_calldata, hl,
    decodeI_ext _ _ htl htd, decode_jovian_fields_ext r1 r2 h]

/-! ### Totality helpers -/

theorem decodeI_total (r : List Nat) (h : r.length = 176) :
    L1BlockInfoIsthmus.decode_calldata r =
      Except.ok (L1BlockInfoIsthmus.from_ecotone (L1BlockInfoEcotone.decode_base_fields r)
        (L1BlockInfoIsthmus.decode_isthmus_fields r).1
        (L1BlockInfoIsthmus.decode_isthmus_fields r).2) := by
  simp [L1BlockInfoIsthmus.decode_calldata, h, L1BlockInfoIsthmus.L1_INFO_TX_LEN]

theorem decodeJ_total (r : List Nat) (h : r.length = 178) :
    L1BlockInfoJovian.decode_calldata r =
      Except.ok (L1BlockInfoJovian.from_isthmus
        (L1BlockInfoIsthmus.from_ecotone
          (L1BlockInfoEcotone.decode_base_fields (r.take 176))
          (L1BlockInfoIsthmus.decode_isthmus_fields (r.take 176)).1
          (L1BlockInfoIsthmus.decode_isthmus_fields (r.take 176)).2)
        (L1BlockInfoJovian.decode_jovian_fields r)) := by
  have ht : (r.take 176).length = 176 := by simp [h]
  unfold L1BlockInfoJovian.decode_calldata
  rw [if_neg (by simp [h, L1BlockInfoJovian.L1_INFO_TX_LEN])]
  rw [show L1BlockInfoIsthmus.L1_INFO_TX_LEN = 176 from rfl, decodeI_total (r.take 176) ht]

/-! ### Claim theorems -/

set_option maxRecDepth 40000

/-- C1: for every width-correct Isthmus record and every width-correct Jovian
record, decoding the encoded calldata returns `Ok` of the original record
(round-trip identity over all field values). -/
theorem c1_roundtrip_identity (vi : L1BlockInfoIsthmus) (vj : L1BlockInfoJovian)
    (hi : vi.Valid) (hj : vj.Valid) :
    L1BlockInfoIsthmus.decode_calldata vi.encode_calldata = Except.ok vi ∧
      L1BlockInfoJovian.decode_calldata vj.encode_calldata = Except.ok vj :=
  ⟨decodeI_encodeI vi hi, decodeJ_encodeJ vj hj⟩

/-- C1 witness: the round-trip theorem applied to the concrete records of the
source's own tests. -/
theorem c1_roundtrip_identity_witness :
    L1BlockInfoIsthmus.decode_calldata
        (L1BlockInfoIsthmus.encode_calldata ⟨1, 2, 3, 4, 5, 6, 7, 8, 9, 10, 11⟩) =
      Except.ok ⟨1, 2, 3, 4, 5, 6, 7, 8, 9, 10, 11⟩ ∧
    L1BlockInfoJovian.decode_calldata
        (L1BlockInfoJovian.encode_calldata ⟨1, 2, 3, 4, 5, 6, 7, 8, 9, 10, 11, 12⟩) =
      Except.ok ⟨1, 2, 3, 4, 5, 6, 7, 8, 9, 10, 11, 12⟩ :=
  c1_roundtrip_identity ⟨1, 2, 3, 4, 5, 6, 7, 8, 9, 10, 11⟩
    ⟨1, 2, 3, 4, 5, 6, 7, 8, 9, 10, 11, 12⟩ (by decide) (by decide)

/-- C2: every buffer whose length is not the tier's constant is rejected with
the tier-specific length error carrying (expected, actual): 176 for Isthmus,
178 for Jovian. -/
theorem c2_length_rejection (r1 r2 : List Nat) (h1 : r1.length ≠ 176)
    (h2 : r2.length ≠ 178) :
    L1BlockInfoIsthmus.decode_calldata r1 =
        Except.error (DecodeError.InvalidIsthmusLength 176 r1.length) ∧
      L1BlockInfoJovian.decode_calldata r2 =
        Except.error (DecodeError.InvalidJovianLength 178 r2.length) := by
  constructor
  · simp [L1BlockInfoIsthmus.decode_calldata, L1BlockInfoIsthmus.L1_INFO_TX_LEN, h1]
  · simp [L1BlockInfoJovian.decode_calldata, L1BlockInfoJovian.L1_INFO_TX_LEN, h2]

/-- C2 witness: the 1-byte buffer of the source's own tests. -/
theorem c2_length_rejection_witness :
    L1BlockInfoIsthmus.decode_calldata [0] =
        Except.error (DecodeError.InvalidIsthmusLength 176 1) ∧
      L1BlockInfoJovian.decode_calldata [0] =
        Except.error (DecodeError.InvalidJovianLength 178 1) :=
  c2_length_rejection [0] [0] (by decide) (by decide)

/-- C3: both encoders are total Lean functions, and the produced buffer length
always equals the tier's length constant (176 for Isthmus, 178 for Jovian). -/
theorem c3_encode_total_length (vi : L1BlockInfoIsthmus) (vj : L1BlockInfoJovian) :
    vi.encode_calldata.length = L1BlockInfoIsthmus.L1_INFO_TX_LEN ∧
      L1BlockInfoIsthmus.L1_INFO_TX_LEN = 176 ∧
      vj.encode_calldata.length = L1BlockInfoJovian.L1_INFO_TX_LEN ∧
      L1BlockInfoJovian.L1_INFO_TX_LEN = 178 := by
  refine ⟨?_, rfl, ?_, rfl⟩
  · rw [encodeI_length]
    rfl
  · rw [encodeJ_length]
    rfl

/-- C4: the first four bytes of every encoding equal the tier's selector
constant, unconditionally overwritten after delegating to the parent. -/
theorem c4_selector_overwritten (vi : L1BlockInfoIsthmus) (vj : L1BlockInfoJovian) :
    byteSlice vi.encode_calldata 0 4 = [0x09, 0x89, 0x99, 0xbe] ∧
      byteSlice vj.encode_calldata 0 4 = [0x3d, 0xb6, 0xbe, 0x2b] := by
  constructor
  · rw [encodeI_chunks]
    simp [byteSlice, L1BlockInfoIsthmus.L1_INFO_TX_SELECTOR]
  · rw [encodeJ_chunks]
    simp [byteSlice, L1BlockInfoJovian.L1_INFO_TX_SELECTOR]

/-- C5: bytes [4..176) of a Jovian encoding are byte-identical to bytes
[4..176) of the Isthmus encoding of the projected shared record. -/
theorem c5_shared_bytes_reuse (v : L1BlockInfoJovian) :
    byteSlice v.encode_calldata 4 176 =
      byteSlice v.to_isthmus.encode_calldata 4 176 := by
  rw [encodeJ_chunks, encodeI_chunks]
  simp [byteSlice, L1BlockInfoJovian.L1_INFO_TX_SELECTOR,
    L1BlockInfoIsthmus.L1_INFO_TX_SELECTOR, L1BlockInfoJovian.to_isthmus]

/-- C6: decoding never inspects the selector bytes: two length-valid buffers
that agree outside bytes [0..4) decode to equal results, for both tiers. -/
theorem c6_selector_agnostic_decode (r1 r2 q1 q2 : List Nat)
    (h1 : r1.length = 176) (h2 : r2.length = 176) (h12 : r1.drop 4 = r2.drop 4)
    (g1 : q1.length = 178) (g2 : q2.length = 178) (g12 : q1.drop 4 = q2.drop 4) :
    L1BlockInfoIsthmus.decode_calldata r1 = L1BlockInfoIsthmus.decode_calldata r2 ∧
      L1BlockInfoJovian.decode_calldata q1 = L1BlockInfoJovian.decode_calldata q2 :=
  ⟨decodeI_ext r1 r2 (h1.trans h2.symm) h12, decodeJ_ext q1 q2 (g1.trans g2.symm) g12⟩

/-- C6 witness: buffers differing only in the first byte decode equally. -/
theorem c6_selector_agnostic_decode_witness :
    L1BlockInfoIsthmus.decode_calldata (List.replicate 176 0) =
        L1BlockInfoIsthmus.decode_calldata (1 :: List.replicate 175 0) ∧
      L1BlockInfoJovian.decode_calldata (List.replicate 178 0) =
        L1BlockInfoJovian.decode_calldata (1 :: List.replicate 177 0) :=
  c6_selector_agnostic_decode (List.replicate 176 0) (1 :: List.replicate 175 0)
    (List.replicate 178 0) (1 :: List.replicate 177 0)
    (by decide) (by decide) (by decide) (by decide) (by decide) (by decide)

/-- C7: in the Isthmus encoding, bytes [164..168) hold `operator_fee_scalar`
big-endian in 4 bytes and bytes [168..176) hold `operator_fee_constant`
big-endian in 8 bytes, and `decode_isthmus_fields` recovers both exactly. -/
theorem c7_isthmus_fields_layout (v : L1BlockInfoIsthmus)
    (hs : v.operator_fee_scalar < 256 ^ 4) (hc : v.operator_fee_constant < 256 ^ 8) :
    byteSlice v.encode_calldata 164 168 = toBytesBE 4 v.operator_fee_scalar ∧
      byteSlice v.encode_calldata 168 176 = toBytesBE 8 v.operator_fee_constant ∧
      L1BlockInfoIsthmus.decode_isthmus_fields v.encode_calldata =
        (v.operator_fee_scalar, v.operator_fee_constant) := by
  refine ⟨?_, ?_, ?_⟩
  · rw [encodeI_chunks]
    simp [byteSlice, L1BlockInfoIsthmus.L1_INFO_TX_SELECTOR]
  · rw [encodeI_chunks]
    simp [byteSlice, L1BlockInfoIsthmus.L1_INFO_TX_SELECTOR]
  · rw [encodeI_chunks]
    norm_num at hs hc
    simp [L1BlockInfoIsthmus.decode_isthmus_fields, byteSlice,
      L1BlockInfoIsthmus.L1_INFO_TX_SELECTOR, Prod.ext_iff]
    omega

/-- C7 witness: the layout theorem applied at the test record. -/
theorem c7_isthmus_fields_layout_witness :
    byteSlice (L1BlockInfoIsthmus.encode_calldata ⟨1, 2, 3, 4, 5, 6, 7, 8, 9, 10, 11⟩)
        164 168 = toBytesBE 4 10 ∧
      byteSlice (L1BlockInfoIsthmus.encode_calldata ⟨1, 2, 3, 4, 5, 6, 7, 8, 9, 10, 11⟩)
        168 176 = toBytesBE 8 11 ∧
      L1BlockInfoIsthmus.decode_isthmus_fields
        (L1BlockInfoIsthmus.encode_calldata ⟨1, 2, 3, 4, 5, 6, 7, 8, 9, 10, 11⟩) = (10, 11) :=
  c7_isthmus_fields_layout ⟨1, 2, 3, 4, 5, 6, 7, 8, 9, 10, 11⟩ (by decide) (by decide)

/-- C8 counterexample: the default-constructed Jovian record (Rust
`derive(Default)` semantics) carries `da_footprint_gas_scalar = 0`, not the
constant `DEFAULT_DA_FOOTPRINT_GAS_SCALAR = 400`. -/
theorem c8_default_counterexample :
    ¬(L1BlockInfoJovian.default.da_footprint_gas_scalar =
        L1BlockInfoJovian.DEFAULT_DA_FOOTPRINT_GAS_SCALAR) := by decide

/-- C8 amended: the constant `DEFAULT_DA_FOOTPRINT_GAS_SCALAR` equals 400, but
the derived `Default` is not wired to it: the default-constructed record
carries `da_footprint_gas_scalar = 0`. -/
theorem c8_default_amended :
    L1BlockInfoJovian.DEFAULT_DA_FOOTPRINT_GAS_SCALAR = 400 ∧
      L1BlockInfoJovian.default.da_footprint_gas_scalar = 0 := by decide

/-- C9: the parent conversions are lossless inverses on the shared fields:
`from_isthmus (to_isthmus j) j.da_footprint_gas_scalar = j`,
`to_isthmus (from_isthmus i d) = i` (and the supplied child field is kept),
and `from_ecotone (to_ecotone i) i.operator_fee_scalar i.operator_fee_constant = i`. -/
theorem c9_parent_conversions_lossless :
    (∀ j : L1BlockInfoJovian,
        L1BlockInfoJovian.from_isthmus j.to_isthmus j.da_footprint_gas_scalar = j) ∧
      (∀ (i : L1BlockInfoIsthmus) (d : Nat),
        (L1BlockInfoJovian.from_isthmus i d).to_isthmus = i ∧
          (L1BlockInfoJovian.from_isthmus i d).da_footprint_gas_scalar = d) ∧
      (∀ i : L1BlockInfoIsthmus,
        L1BlockInfoIsthmus.from_ecotone i.to_ecotone i.operator_fee_scalar
          i.operator_fee_constant = i) :=
  ⟨fun _ => rfl, fun _ _ => ⟨rfl, rfl⟩, fun _ => rfl⟩

/-- C10: once the 178-byte length check passes, the delegated Isthmus decode of
the 176-byte slice always succeeds (the `map_err` branch is unreachable), so
Jovian decode returns `Ok` on every 178-byte buffer regardless of content. -/
theorem c10_jovian_decode_always_ok (r : List Nat) (h : r.length = 178) :
    (∃ w, L1BlockInfoIsthmus.decode_calldata
        (r.take L1BlockInfoIsthmus.L1_INFO_TX_LEN) = Except.ok w) ∧
      ∃ v, L1BlockInfoJovian.decode_calldata r = Except.ok v := by
  have ht : (r.take 176).length = 176 := by simp [h]
  constructor
  · rw [show L1BlockInfoIsthmus.L1_INFO_TX_LEN = 176 from rfl]
    exact ⟨_, decodeI_total (r.take 176) ht⟩
  · exact ⟨_, decodeJ_total r h⟩

/-- C10 witness: the all-zero 178-byte buffer decodes to `Ok`. -/
theorem c10_jovian_decode_always_ok_witness :
    (∃ w, L1BlockInfoIsthmus.decode_calldata
        ((List.replicate 178 0).take L1BlockInfoIsthmus.L1_INFO_TX_LEN) = Except.ok w) ∧
      ∃ v, L1BlockInfoJovian.decode_calldata (List.replicate 178 0) = Except.ok v :=
  c10_jovian_decode_always_ok (List.replicate 178 0) (by decide)
